import Mathlib

/-!
Verification of the sql-mcp core: query authorization (`validateQuery`),
identifier codec (`sanitizeIdentifier` / `escapeIdentifier`), adapter
row-limit rewrites, and the connection-manager state machine.

The TypeScript source is embedded shallowly: JavaScript regular expressions
over the small fragment actually used (character classes with `*`/`+`
quantifiers, optional `^` anchor) are modelled by an explicit atom list and
an existential matcher; strings are `List Char`; stateful classes become
explicit state records with driver outcomes passed in as oracles.
-/

namespace SqlMcp

/-- JavaScript whitespace class `\s` (also the set removed by
`String.prototype.trim`): ASCII whitespace, NBSP, Unicode space
separators, line/paragraph separators and the BOM. -/
def jsWs (c : Char) : Bool :=
  c == ' ' || c == '\t' || c == '\n' || c == '\r' || c == '\x0b' || c == '\x0c' ||
  c == '\u00A0' || c == '\u1680' ||
  c == '\u2000' || c == '\u2001' || c == '\u2002' || c == '\u2003' ||
  c == '\u2004' || c == '\u2005' || c == '\u2006' || c == '\u2007' ||
  c == '\u2008' || c == '\u2009' || c == '\u200A' ||
  c == '\u2028' || c == '\u2029' || c == '\u202F' || c == '\u205F' ||
  c == '\u3000' || c == '\uFEFF'

/-- JavaScript word-character class `\w`, i.e. `[A-Za-z0-9_]` (the regexes
in the source have no unicode flag, so `\w` is plain ASCII). -/
def jsWordChar (c : Char) : Bool :=
  c.isAlpha || c.isDigit || c == '_'

/-- JavaScript `String.prototype.trim`: drop leading and trailing
whitespace. -/
def jsTrim (s : List Char) : List Char :=
  ((s.dropWhile jsWs).reverse.dropWhile jsWs).reverse

/-- One quantified character class of a regular expression: exactly one
occurrence, one-or-more (`+`), or zero-or-more (`*`). Every regex in the
source is a sequence of such atoms. -/
inductive Atom
  | one (p : Char → Bool)
  | plus (p : Char → Bool)
  | star (p : Char → Bool)

/-- All suffixes of `l` reachable by deleting zero or more leading
characters satisfying `p` — the possible remainders after a `*`/`+`
quantifier consumes part of the input. -/
def pDrops (p : Char → Bool) : List Char → List (List Char)
  | [] => [[]]
  | c :: cs => (c :: cs) :: (if p c then pDrops p cs else [])

/-- `matchAtoms as s` decides whether the atom sequence `as` matches some
prefix of `s` (regex semantics: existence of a match). -/
def matchAtoms : List Atom → List Char → Bool
  | [], _ => true
  | Atom.one _ :: _, [] => false
  | Atom.one p :: as, c :: cs => p c && matchAtoms as cs
  | Atom.plus _ :: _, [] => false
  | Atom.plus p :: as, c :: cs => p c && (pDrops p cs).any (fun t => matchAtoms as t)
  | Atom.star p :: as, cs => (pDrops p cs).any (fun t => matchAtoms as t)

/-- `matchAtomsAll as s` decides whether `as` matches the whole of `s`
(for regexes anchored at both ends, `^...$`). -/
def matchAtomsAll : List Atom → List Char → Bool
  | [], cs => cs.isEmpty
  | Atom.one _ :: _, [] => false
  | Atom.one p :: as, c :: cs => p c && matchAtomsAll as cs
  | Atom.plus _ :: _, [] => false
  | Atom.plus p :: as, c :: cs => p c && (pDrops p cs).any (fun t => matchAtomsAll as t)
  | Atom.star p :: as, cs => (pDrops p cs).any (fun t => matchAtomsAll as t)

/-- `testAnywhere as s`: the atom sequence matches starting at some
position of `s` (an unanchored `RegExp.test`). -/
def testAnywhere (as : List Atom) : List Char → Bool
  | [] => matchAtoms as []
  | c :: cs => matchAtoms as (c :: cs) || testAnywhere as cs

/-- A source regular expression: its atom sequence and whether it is
anchored at the start (`^`). All source patterns carry the `i` flag, which
is folded into the case-insensitive literal atoms. -/
structure Pattern where
  atoms : List Atom
  anchored : Bool

/-- `RegExp.prototype.test`. -/
def Pattern.test (p : Pattern) (s : List Char) : Bool :=
  if p.anchored then matchAtoms p.atoms s else testAnywhere p.atoms s

/-- `matchesAnyPattern` from `src/utils/validation.ts`:
`patterns.some(pattern => pattern.test(sql))`. -/
def matchesAnyPattern (sql : List Char) (patterns : List Pattern) : Bool :=
  patterns.any (fun p => p.test sql)

/-- Case-insensitive literal character (the `i` flag). -/
def ci (c : Char) : Atom :=
  Atom.one (fun d => d.toLower == c.toLower)

/-- Case-insensitive literal word. -/
def lit (s : String) : List Atom := s.data.map ci

/-- Atom for `\s*`. -/
def wsStar : Atom := Atom.star jsWs

/-- Atom for `\s+`. -/
def wsPlus : Atom := Atom.plus jsWs

/-- A keyword pattern of shape `/^\s*KW\s+/i`. -/
def kwPat (kw : String) : Pattern := ⟨[wsStar] ++ lit kw ++ [wsPlus], true⟩

/-- `SAFE_PATTERNS` from `src/utils/validation.ts`: `/^\s*SELECT\s+/i`,
`/^\s*WITH\s+[\w\s,]+\s+AS\s*\(/i`, `/^\s*EXPLAIN\s+/i`, `/^\s*SHOW\s+/i`,
`/^\s*DESCRIBE\s+/i`, `/^\s*DESC\s+/i`. -/
def SAFE_PATTERNS : List Pattern :=
  [ kwPat "SELECT",
    ⟨[wsStar] ++ lit "WITH" ++
      [wsPlus, Atom.plus (fun c => jsWordChar c || jsWs c || c == ','), wsPlus] ++
      lit "AS" ++ [wsStar, Atom.one (fun c => c == '(')], true⟩,
    kwPat "EXPLAIN",
    kwPat "SHOW",
    kwPat "DESCRIBE",
    kwPat "DESC" ]

/-- `WRITE_PATTERNS` from `src/utils/validation.ts`. -/
def WRITE_PATTERNS : List Pattern :=
  [kwPat "INSERT", kwPat "UPDATE", kwPat "DELETE", kwPat "MERGE"]

/-- `DDL_PATTERNS` from `src/utils/validation.ts`. -/
def DDL_PATTERNS : List Pattern :=
  [ kwPat "CREATE", kwPat "ALTER", kwPat "DROP", kwPat "TRUNCATE",
    kwPat "GRANT", kwPat "REVOKE", kwPat "EXEC", kwPat "EXECUTE" ]

/-- An unanchored injection pattern `/;\s*KW\s+/i`. -/
def injKw (kw : String) : Pattern :=
  ⟨[Atom.one (fun c => c == ';'), wsStar] ++ lit kw ++ [wsPlus], false⟩

/-- `INJECTION_PATTERNS` from `src/utils/validation.ts`: `/;\s*DROP\s+/i`,
`/;\s*DELETE\s+/i`, `/;\s*TRUNCATE\s+/i`, `/;\s*UPDATE\s+/i`,
`/;\s*INSERT\s+/i`, `/;\s*ALTER\s+/i`, `/;\s*CREATE\s+/i`,
`/;\s*EXEC\s*\(/i`, `/xp_cmdshell/i`, `/sp_executesql/i`. -/
def INJECTION_PATTERNS : List Pattern :=
  [ injKw "DROP", injKw "DELETE", injKw "TRUNCATE", injKw "UPDATE",
    injKw "INSERT", injKw "ALTER", injKw "CREATE",
    ⟨[Atom.one (fun c => c == ';'), wsStar] ++ lit "EXEC" ++
      [wsStar, Atom.one (fun c => c == '(')], false⟩,
    ⟨lit "xp_cmdshell", false⟩,
    ⟨lit "sp_executesql", false⟩ ]

/-- The three query modes. -/
inductive QueryMode
  | safe
  | write
  | full
deriving DecidableEq

/-- Observable outcome of `validateQuery`, identifying the exact throw
site (error class and message) or normal return. -/
inductive ValidateOutcome
  | ok
  | validationEmpty
  | validationInjection
  | permissionSafe
  | permissionWriteDDL
  | permissionWriteOther
deriving DecidableEq

/-- The outcome is a `ValidationError` throw. -/
def isValidationErrorOutcome : ValidateOutcome → Bool
  | ValidateOutcome.validationEmpty => true
  | ValidateOutcome.validationInjection => true
  | _ => false

/-- `validateQuery` from `src/utils/validation.ts`: empty check, then the
injection scan on the untrimmed input (skipped only in `full` mode), then
the `full` shortcut, then the mode-specific allow-lists on the trimmed
input. -/
def validateQuery (sql : String) (mode : QueryMode) : ValidateOutcome :=
  if jsTrim sql.data = [] then ValidateOutcome.validationEmpty
  else if mode ≠ QueryMode.full ∧ matchesAnyPattern sql.data INJECTION_PATTERNS = true then
    ValidateOutcome.validationInjection
  else if mode = QueryMode.full then ValidateOutcome.ok
  else if mode = QueryMode.safe then
    (if matchesAnyPattern (jsTrim sql.data) SAFE_PATTERNS = false then
      ValidateOutcome.permissionSafe
     else ValidateOutcome.ok)
  else if mode = QueryMode.write then
    (if matchesAnyPattern (jsTrim sql.data) SAFE_PATTERNS = false ∧
        matchesAnyPattern (jsTrim sql.data) WRITE_PATTERNS = false then
      (if matchesAnyPattern (jsTrim sql.data) DDL_PATTERNS = true then
        ValidateOutcome.permissionWriteDDL
       else ValidateOutcome.permissionWriteOther)
     else ValidateOutcome.ok)
  else ValidateOutcome.ok

example : validateQuery "SELECT * FROM t" QueryMode.safe = ValidateOutcome.ok := by decide
example : validateQuery "SELECT 1; DROP TABLE t" QueryMode.safe = ValidateOutcome.validationInjection := by decide
example : validateQuery "SELECT 1; DROP TABLE t" QueryMode.full = ValidateOutcome.ok := by decide
example : validateQuery "WITH cte AS (SELECT 1) SELECT * FROM cte" QueryMode.safe = ValidateOutcome.ok := by decide
example : validateQuery "INSERT INTO t VALUES (1)" QueryMode.safe = ValidateOutcome.permissionSafe := by decide
example : validateQuery "INSERT INTO t VALUES (1)" QueryMode.write = ValidateOutcome.ok := by decide
example : validateQuery "DROP TABLE t" QueryMode.write = ValidateOutcome.permissionWriteDDL := by decide
example : validateQuery "VACUUM" QueryMode.write = ValidateOutcome.permissionWriteOther := by decide
example : validateQuery "   " QueryMode.full = ValidateOutcome.validationEmpty := by decide

/-- The one-layer delimiter strip of `sanitizeIdentifier`:
`identifier.replace(/^\[|\]$|^"|"$|^'|'$/g, '')`. With the `g` flag this
removes the first character when it is `[`, `"` or `'` (the `^`-anchored
alternatives) and, independently, the last character when it is `]`, `"`
or `'` (the `$`-anchored alternatives). -/
def stripWrap (s : List Char) : List Char :=
  let s1 := match s with
    | [] => []
    | c :: cs => if c == '[' || c == '"' || c == '\x27' then cs else c :: cs
  match s1.getLast? with
  | none => s1
  | some c => if c == ']' || c == '"' || c == '\x27' then s1.dropLast else s1

/-- The identifier shape test of `sanitizeIdentifier`:
`/^[\w][\w.]*$/i.test(cleaned)`, transliterated atom by atom (the `i`
flag is vacuous on these classes). -/
def identRegexOk (s : List Char) : Bool :=
  matchAtomsAll [Atom.one jsWordChar, Atom.star (fun c => jsWordChar c || c == '.')] s

/-- `sanitizeIdentifier` from `src/utils/validation.ts`; `none` models the
`ValidationError` throw. -/
def sanitizeIdentifier (identifier : String) : Option String :=
  if identRegexOk (stripWrap identifier.data) then some ⟨stripWrap identifier.data⟩
  else none

/-- The supported database engines. -/
inductive DatabaseEngine
  | mssql
  | postgres
deriving DecidableEq

/-- JavaScript `String.prototype.split('.')`: split at every dot, keeping
empty segments (so a trailing dot yields a trailing empty segment). -/
def splitDots : List Char → List (List Char)
  | [] => [[]]
  | c :: cs =>
    if c == '.' then [] :: splitDots cs
    else match splitDots cs with
      | [] => [[c]]
      | h :: t => (c :: h) :: t

/-- `Array.prototype.join('.')`. -/
def joinDots : List (List Char) → List Char
  | [] => []
  | [p] => p
  | p :: ps => p ++ '.' :: joinDots ps

/-- Per-dialect quoting of one identifier segment: square brackets for
MSSQL, double quotes for PostgreSQL. -/
def wrapSeg (engine : DatabaseEngine) (p : List Char) : List Char :=
  match engine with
  | DatabaseEngine.mssql => '[' :: (p ++ [']'])
  | DatabaseEngine.postgres => '"' :: (p ++ ['"'])

/-- `escapeIdentifier` from `src/utils/validation.ts`: sanitize, then
re-quote — splitting on dots when a dot is present, else wrapping the
whole identifier. -/
def escapeIdentifier (identifier : String) (engine : DatabaseEngine) : Option String :=
  match sanitizeIdentifier identifier with
  | none => none
  | some sanitized =>
    some (if sanitized.data.any (fun c => c == '.') then
            ⟨joinDots ((splitDots sanitized.data).map (wrapSeg engine))⟩
          else ⟨wrapSeg engine sanitized.data⟩)

example : sanitizeIdentifier "[users]" = some "users" := by decide
example : sanitizeIdentifier "dbo.users" = some "dbo.users" := by decide
example : sanitizeIdentifier "users; DROP TABLE" = none := by decide
example : sanitizeIdentifier "\"\"" = none := by decide
example : escapeIdentifier "dbo.users" DatabaseEngine.mssql = some "[dbo].[users]" := by decide
example : escapeIdentifier "public.users" DatabaseEngine.postgres = some "\"public\".\"users\"" := by decide
example : escapeIdentifier "users" DatabaseEngine.mssql = some "[users]" := by decide

/-- `str.includes(sub)`: `sub` occurs as a contiguous substring. -/
def hasSubstr (needle : List Char) : List Char → Bool
  | [] => needle.isEmpty
  | c :: cs => needle.isPrefixOf (c :: cs) || hasSubstr needle cs

/-- The row-limit branch condition of `PostgresAdapter.executeQuery`:
`trimmedQuery.startsWith('SELECT') && !trimmedQuery.includes(' LIMIT ')`
where `trimmedQuery = query.trim().toUpperCase()`. -/
def pgLimitCond (query : String) : Bool :=
  "SELECT".data.isPrefixOf ((jsTrim query.data).map Char.toUpper) &&
  !hasSubstr " LIMIT ".data ((jsTrim query.data).map Char.toUpper)

/-- `query.trim().replace(/;?\s*$/, '')`: on an already-trimmed string the
first (and only) match is one optional final semicolon. -/
def pgStripTail (l : List Char) : List Char :=
  match l.getLast? with
  | none => l
  | some c => if c == ';' then l.dropLast else l

/-- The SELECT rewrite of `PostgresAdapter.executeQuery`: append
`LIMIT <limit>` when the statement is an un-LIMITed SELECT. -/
def pgRewriteQuery (query : String) (limit : Nat) : String :=
  if pgLimitCond query then
    ⟨pgStripTail (jsTrim query.data) ++ (" LIMIT " ++ toString limit).data⟩
  else query

/-- The row-limit branch condition of `MssqlAdapter.executeQuery`:
`trimmedQuery.startsWith('SELECT') && !trimmedQuery.includes(' TOP ') &&
!trimmedQuery.includes(' OFFSET ')`. -/
def msLimitCond (query : String) : Bool :=
  "SELECT".data.isPrefixOf ((jsTrim query.data).map Char.toUpper) &&
  !hasSubstr " TOP ".data ((jsTrim query.data).map Char.toUpper) &&
  !hasSubstr " OFFSET ".data ((jsTrim query.data).map Char.toUpper)

/-- Case-insensitive list equality against a literal (for the
`/^(\s*SELECT\s+)/i` match). -/
def ciPref : List Char → List Char → Bool
  | [], _ => true
  | _ :: _, [] => false
  | c :: cs, d :: ds => (c.toLower == d.toLower) && ciPref cs ds

/-- Whether `/^(\s*SELECT\s+)/i` matches `q`: optional leading whitespace,
the keyword, then at least one whitespace character. -/
def msTopShape (q : List Char) : Bool :=
  ciPref "SELECT".data (q.dropWhile jsWs) &&
  (match ((q.dropWhile jsWs).drop 6).head? with
   | some c => jsWs c
   | none => false)

/-- `query.replace(/^(\s*SELECT\s+)/i, '$1TOP <limit> ')`: when the
anchored pattern matches, insert `TOP <limit> ` after the greedily matched
group (leading whitespace, keyword, all following whitespace); when it
does not match, the string is returned unchanged. -/
def msTopReplace (q : List Char) (limit : Nat) : List Char :=
  if msTopShape q then
    q.takeWhile jsWs ++ ((q.dropWhile jsWs).take 6 ++
      (((q.dropWhile jsWs).drop 6).takeWhile jsWs ++
        (("TOP " ++ toString limit ++ " ").data ++
          ((q.dropWhile jsWs).drop 6).dropWhile jsWs)))
  else q

/-- The SELECT rewrite of `MssqlAdapter.executeQuery`: insert
`TOP <limit>` after the SELECT keyword when the statement is an unbounded
SELECT. -/
def mssqlRewriteQuery (query : String) (limit : Nat) : String :=
  if msLimitCond query then ⟨msTopReplace query.data limit⟩ else query

example : pgRewriteQuery "SELECT * FROM t" 50 = "SELECT * FROM t LIMIT 50" := by decide
example : pgRewriteQuery "SELECT * FROM t;" 50 = "SELECT * FROM t LIMIT 50" := by decide
example : pgRewriteQuery "select * from t limit 5" 50 = "select * from t limit 5" := by decide
example : pgRewriteQuery "INSERT INTO t VALUES (1)" 50 = "INSERT INTO t VALUES (1)" := by decide
example : mssqlRewriteQuery "SELECT * FROM t" 50 = "SELECT TOP 50 * FROM t" := by decide
example : mssqlRewriteQuery "  select x FROM t" 7 = "  select TOP 7 x FROM t" := by decide
example : mssqlRewriteQuery "SELECT TOP 3 x FROM t" 50 = "SELECT TOP 3 x FROM t" := by decide
example : mssqlRewriteQuery "SELECT*FROM t" 50 = "SELECT*FROM t" := by decide

/-- Connection configuration (the fields the lifecycle logic reads). -/
structure ConnectionConfig where
  engine : DatabaseEngine
  server : String
  port : Option Nat
  database : Option String
  user : Option String
  password : Option String
deriving DecidableEq

/-- Error taxonomy of the lifecycle paths: `NotConnectedError`,
`ConnectionError` (with the preserved original cause), `QueryError` (with
the preserved original cause), and an unwrapped driver rejection (the
adapters' `disconnect` does not wrap `pool.end()`/`pool.close()`
failures). -/
inductive DbError
  | notConnected
  | connectionError (cause : Option String)
  | queryError (cause : Option String)
  | driverError (msg : String)
deriving DecidableEq

/-- Outcome of one underlying driver call, passed in as an oracle. -/
inductive DriverResult
  | ok
  | fail (msg : String)
deriving DecidableEq

/-- Observable state of one adapter instance (`BaseAdapter` fields plus
whether the engine-specific `pool` field is set). -/
structure AdapterState where
  engine : DatabaseEngine
  isConnected : Bool
  currentDatabase : Option String
  config : Option ConnectionConfig
  poolOpen : Bool
deriving DecidableEq

/-- A freshly constructed adapter (`createAdapter`): disconnected, no
database, no config, no pool. -/
def createAdapter (engine : DatabaseEngine) : AdapterState :=
  ⟨engine, false, none, none, false⟩

/-- `connect` of the two adapters, with the driver outcome as oracle.
PostgreSQL assigns `this.pool = new Pool(...)` before the test connection,
so a failed test leaves the pool reference set; MSSQL assigns the pool
only from a successful `sql.connect`. On success the current database
defaults to `postgres` / `master`; on failure the raw error is wrapped in
`ConnectionError` preserving the cause, and `_isConnected` stays false. -/
def AdapterState.connect (a : AdapterState) (config : ConnectionConfig)
    (driver : DriverResult) : AdapterState × Option DbError :=
  match a.engine with
  | DatabaseEngine.postgres =>
    match driver with
    | DriverResult.ok =>
      ({ a with poolOpen := true, isConnected := true,
                currentDatabase := some (config.database.getD "postgres"),
                config := some config }, none)
    | DriverResult.fail msg =>
      ({ a with poolOpen := true }, some (DbError.connectionError (some msg)))
  | DatabaseEngine.mssql =>
    match driver with
    | DriverResult.ok =>
      ({ a with poolOpen := true, isConnected := true,
                currentDatabase := some (config.database.getD "master"),
                config := some config }, none)
    | DriverResult.fail msg =>
      (a, some (DbError.connectionError (some msg)))

/-- `disconnect` of the two adapters: `pool.end()` / `pool.close()` when a
pool is set (its failure propagates unwrapped and skips the resets), then
reset pool, `_isConnected`, `_currentDatabase` and `_config`. -/
def AdapterState.disconnect (a : AdapterState) (teardown : DriverResult) :
    AdapterState × Option DbError :=
  if a.poolOpen then
    match teardown with
    | DriverResult.fail msg => (a, some (DbError.driverError msg))
    | DriverResult.ok =>
      ({ a with poolOpen := false, isConnected := false,
                currentDatabase := none, config := none }, none)
  else
    ({ a with isConnected := false, currentDatabase := none, config := none }, none)

/-- `ConnectionManager` state: the optional adapter and the separately
stored server address. -/
structure ConnectionManager where
  adapter : Option AdapterState
  serverAddress : Option String
deriving DecidableEq

/-- The derived `ConnectionState` projection. -/
structure ConnectionState where
  isConnected : Bool
  engine : Option DatabaseEngine
  database : Option String
  server : Option String
deriving DecidableEq

/-- The fully-disconnected projection. -/
def disconnectedState : ConnectionState := ⟨false, none, none, none⟩

/-- `ConnectionManager.getAdapter`: fails with `NotConnectedError` when no
adapter is stored or the stored adapter reports itself disconnected. -/
def ConnectionManager.getAdapter (m : ConnectionManager) : Except DbError AdapterState :=
  match m.adapter with
  | none => Except.error DbError.notConnected
  | some a => if a.isConnected then Except.ok a else Except.error DbError.notConnected

/-- `ConnectionManager.isConnected`. -/
def ConnectionManager.isConnected (m : ConnectionManager) : Bool :=
  match m.adapter with
  | none => false
  | some a => a.isConnected

/-- `ConnectionManager.getConnectionState`. -/
def ConnectionManager.getConnectionState (m : ConnectionManager) : ConnectionState :=
  match m.adapter with
  | none => disconnectedState
  | some a =>
    if a.isConnected then ⟨true, some a.engine, a.currentDatabase, m.serverAddress⟩
    else disconnectedState

/-- `ConnectionManager.disconnect`: no-op without an adapter; otherwise
run the adapter teardown and, in a `finally`, clear both stored
references; a teardown failure still propagates. -/
def ConnectionManager.disconnect (m : ConnectionManager) (teardown : DriverResult) :
    ConnectionManager × Option DbError :=
  match m.adapter with
  | none => (m, none)
  | some a => (⟨none, none⟩, (a.disconnect teardown).2)

/-- `ConnectionManager.connect`: disconnect first when the current adapter
is connected (a failure there propagates and aborts), then store a fresh
adapter for the engine, connect it, and record the server address only on
success. -/
def ConnectionManager.connect (m : ConnectionManager) (config : ConnectionConfig)
    (driver : DriverResult) (teardown : DriverResult) :
    ConnectionManager × Option DbError :=
  let step : ConnectionManager × Option DbError :=
    match m.adapter with
    | some a => if a.isConnected then m.disconnect teardown else (m, none)
    | none => (m, none)
  match step.2 with
  | some e => (step.1, some e)
  | none =>
    match (createAdapter config.engine).connect config driver with
    | (a2, none) => (⟨some a2, some config.server⟩, none)
    | (a2, some e) => (⟨some a2, step.1.serverAddress⟩, some e)

/-- Table metadata row (`TableInfo`). -/
structure TableInfo where
  schema : String
  name : String
  kind : String
deriving DecidableEq

/-- `listDatabases` of an adapter with the catalog-query outcome as
oracle: requires connection, wraps failures in `QueryError`. -/
def AdapterState.listDatabases (a : AdapterState)
    (driver : Except String (List String)) : Except DbError (List String) :=
  if a.isConnected then
    match driver with
    | Except.ok v => Except.ok v
    | Except.error e => Except.error (DbError.queryError (some e))
  else Except.error DbError.notConnected

/-- `listTables` of an adapter. -/
def AdapterState.listTables (a : AdapterState)
    (driver : Except String (List TableInfo)) : Except DbError (List TableInfo) :=
  if a.isConnected then
    match driver with
    | Except.ok v => Except.ok v
    | Except.error e => Except.error (DbError.queryError (some e))
  else Except.error DbError.notConnected

/-- Default schema per engine (`getDefaultSchema`). -/
def getDefaultSchema : DatabaseEngine → String
  | DatabaseEngine.mssql => "dbo"
  | DatabaseEngine.postgres => "public"

/-- `describeTable` of an adapter; the oracle abstracts the catalog query
for the resolved schema, its payload the normalized column list. -/
def AdapterState.describeTable (a : AdapterState) (tableName : String)
    (schema : Option String) (driver : String → Except String (List String)) :
    Except DbError (List String) :=
  if a.isConnected then
    match driver (schema.getD (getDefaultSchema a.engine)) with
    | Except.ok v => Except.ok v
    | Except.error e => Except.error (DbError.queryError (some e))
  else Except.error DbError.notConnected

/-- `executeQuery` of an adapter: requires connection, applies the
dialect row-limit rewrite (default limit 100) and sends the rewritten
statement to the driver, wrapping failures in `QueryError`. -/
def AdapterState.executeQuery (a : AdapterState) (sql : String) (limit : Option Nat)
    (driver : String → Except String (List (List String))) :
    Except DbError (List (List String)) :=
  if a.isConnected then
    match driver (match a.engine with
      | DatabaseEngine.postgres => pgRewriteQuery sql (limit.getD 100)
      | DatabaseEngine.mssql => mssqlRewriteQuery sql (limit.getD 100)) with
    | Except.ok v => Except.ok v
    | Except.error e => Except.error (DbError.queryError (some e))
  else Except.error DbError.notConnected

/-- `switchDatabase` of an adapter: requires connection; MSSQL issues a
`USE` statement (oracle `driver`) and updates the current database;
PostgreSQL replays the stored config with the new database after a full
disconnect (oracles `teardown` then `driver`). -/
def AdapterState.switchDatabase (a : AdapterState) (database : String)
    (teardown : DriverResult) (driver : DriverResult) :
    AdapterState × Option DbError :=
  if a.isConnected then
    match a.engine with
    | DatabaseEngine.mssql =>
      match driver with
      | DriverResult.ok => ({ a with currentDatabase := some database }, none)
      | DriverResult.fail msg => (a, some (DbError.queryError (some msg)))
    | DatabaseEngine.postgres =>
      match a.config with
      | none => (a, some (DbError.connectionError none))
      | some cfg =>
        match a.disconnect teardown with
        | (a1, some e) => (a1, some e)
        | (a1, none) => a1.connect { cfg with database := some database } driver
  else (a, some DbError.notConnected)

/-- True when the manager holds no live session. -/
def ConnectionManager.noLiveSession (m : ConnectionManager) : Bool :=
  match m.adapter with
  | none => true
  | some a => !a.isConnected

/-- `ConnectionManager.listDatabases`: delegation guarded by
`getAdapter`. -/
def ConnectionManager.listDatabases (m : ConnectionManager)
    (driver : Except String (List String)) : Except DbError (List String) :=
  match m.getAdapter with
  | Except.error e => Except.error e
  | Except.ok a => a.listDatabases driver

/-- `ConnectionManager.listTables`. -/
def ConnectionManager.listTables (m : ConnectionManager)
    (driver : Except String (List TableInfo)) : Except DbError (List TableInfo) :=
  match m.getAdapter with
  | Except.error e => Except.error e
  | Except.ok a => a.listTables driver

/-- `ConnectionManager.describeTable`. -/
def ConnectionManager.describeTable (m : ConnectionManager) (tableName : String)
    (schema : Option String) (driver : String → Except String (List String)) :
    Except DbError (List String) :=
  match m.getAdapter with
  | Except.error e => Except.error e
  | Except.ok a => a.describeTable tableName schema driver

/-- `ConnectionManager.executeQuery`. -/
def ConnectionManager.executeQuery (m : ConnectionManager) (sql : String)
    (limit : Option Nat) (driver : String → Except String (List (List String))) :
    Except DbError (List (List String)) :=
  match m.getAdapter with
  | Except.error e => Except.error e
  | Except.ok a => a.executeQuery sql limit driver

/-- `ConnectionManager.switchDatabase`: the updated adapter is stored
back (the source mutates it in place). -/
def ConnectionManager.switchDatabase (m : ConnectionManager) (database : String)
    (teardown : DriverResult) (driver : DriverResult) :
    ConnectionManager × Option DbError :=
  match m.getAdapter with
  | Except.error e => (m, some e)
  | Except.ok a =>
    match a.switchDatabase database teardown driver with
    | (a1, e) => (⟨some a1, m.serverAddress⟩, e)

/-- Claim C1: for every SQL string with non-empty trimmed content,
`validateQuery` in `safe` or `write` mode throws `ValidationError` exactly
when the string matches one of the fixed injection indicators
(`INJECTION_PATTERNS`: a statement separator followed by a mutating or
DDL keyword, or a dangerous procedure name); in `full` mode the check is
skipped and the statement is allowed unconditionally. -/
theorem c1_injection_gate (sql : String) (mode : QueryMode)
    (h : jsTrim sql.data ≠ []) :
    ((mode = QueryMode.safe ∨ mode = QueryMode.write) →
      (isValidationErrorOutcome (validateQuery sql mode) = true ↔
        matchesAnyPattern sql.data INJECTION_PATTERNS = true))
    ∧ (mode = QueryMode.full → validateQuery sql mode = ValidateOutcome.ok) := by
  constructor
  · rintro (rfl | rfl) <;>
      by_cases hinj : matchesAnyPattern sql.data INJECTION_PATTERNS = true
    · simp [validateQuery, h, hinj, isValidationErrorOutcome]
    · by_cases hs : matchesAnyPattern (jsTrim sql.data) SAFE_PATTERNS = false <;>
        simp [validateQuery, h, hinj, hs, isValidationErrorOutcome]
    · simp [validateQuery, h, hinj, isValidationErrorOutcome]
    · by_cases hs : matchesAnyPattern (jsTrim sql.data) SAFE_PATTERNS = false <;>
        by_cases hw : matchesAnyPattern (jsTrim sql.data) WRITE_PATTERNS = false <;>
        by_cases hd : matchesAnyPattern (jsTrim sql.data) DDL_PATTERNS = true <;>
        simp [validateQuery, h, hinj, hs, hw, hd, isValidationErrorOutcome]
  · rintro rfl
    simp [validateQuery, h]

/-- Witness for C1 at the spec's own example. -/
theorem c1_injection_gate_witness :
    jsTrim ("SELECT 1; DROP TABLE t").data ≠ [] ∧
    (isValidationErrorOutcome (validateQuery "SELECT 1; DROP TABLE t" QueryMode.safe) = true ↔
      matchesAnyPattern ("SELECT 1; DROP TABLE t").data INJECTION_PATTERNS = true) :=
  ⟨by decide,
   (c1_injection_gate "SELECT 1; DROP TABLE t" QueryMode.safe (by decide)).1 (Or.inl rfl)⟩

/-- Claim C2: for every non-empty SQL string that passes the injection
check, `safe` mode returns exactly when the trimmed statement matches one
of the read-only patterns (`SELECT`, `WITH … AS (`, `EXPLAIN`, `SHOW`,
`DESCRIBE`, `DESC`), and otherwise throws the safe-mode
`PermissionError`. -/
theorem c2_safe_allowlist (sql : String)
    (h1 : jsTrim sql.data ≠ [])
    (h2 : matchesAnyPattern sql.data INJECTION_PATTERNS = false) :
    validateQuery sql QueryMode.safe =
      (if matchesAnyPattern (jsTrim sql.data) SAFE_PATTERNS = true then ValidateOutcome.ok
       else ValidateOutcome.permissionSafe) := by
  by_cases hs : matchesAnyPattern (jsTrim sql.data) SAFE_PATTERNS = true <;>
    simp [validateQuery, h1, h2, hs]

/-- Witness for C2: a plain SELECT is allowed, a plain INSERT is not. -/
theorem c2_safe_allowlist_witness :
    validateQuery "SELECT * FROM t" QueryMode.safe =
      (if matchesAnyPattern (jsTrim ("SELECT * FROM t").data) SAFE_PATTERNS = true then
        ValidateOutcome.ok
       else ValidateOutcome.permissionSafe) ∧
    validateQuery "INSERT INTO t VALUES (1)" QueryMode.safe =
      (if matchesAnyPattern (jsTrim ("INSERT INTO t VALUES (1)").data) SAFE_PATTERNS = true then
        ValidateOutcome.ok
       else ValidateOutcome.permissionSafe) :=
  ⟨c2_safe_allowlist "SELECT * FROM t" (by decide) (by decide),
   c2_safe_allowlist "INSERT INTO t VALUES (1)" (by decide) (by decide)⟩

/-- Claim C3: for every non-empty SQL string that passes the injection
check, `write` mode returns exactly when the trimmed statement matches a
read-only or a mutating pattern; otherwise it throws the DDL-specific
`PermissionError` when a DDL pattern matches and the generic write-mode
`PermissionError` otherwise. -/
theorem c3_write_allowlist (sql : String)
    (h1 : jsTrim sql.data ≠ [])
    (h2 : matchesAnyPattern sql.data INJECTION_PATTERNS = false) :
    validateQuery sql QueryMode.write =
      (if matchesAnyPattern (jsTrim sql.data) SAFE_PATTERNS = true ∨
          matchesAnyPattern (jsTrim sql.data) WRITE_PATTERNS = true then ValidateOutcome.ok
       else if matchesAnyPattern (jsTrim sql.data) DDL_PATTERNS = true then
        ValidateOutcome.permissionWriteDDL
       else ValidateOutcome.permissionWriteOther) := by
  by_cases hs : matchesAnyPattern (jsTrim sql.data) SAFE_PATTERNS = true <;>
    by_cases hw : matchesAnyPattern (jsTrim sql.data) WRITE_PATTERNS = true <;>
    by_cases hd : matchesAnyPattern (jsTrim sql.data) DDL_PATTERNS = true <;>
    simp [validateQuery, h1, h2, hs, hw, hd]

/-- Witness for C3 at the spec's example: `DROP TABLE t` in write mode
takes the DDL-specific error. -/
theorem c3_write_allowlist_witness :
    validateQuery "DROP TABLE t" QueryMode.write =
      (if matchesAnyPattern (jsTrim ("DROP TABLE t").data) SAFE_PATTERNS = true ∨
          matchesAnyPattern (jsTrim ("DROP TABLE t").data) WRITE_PATTERNS = true then
        ValidateOutcome.ok
       else if matchesAnyPattern (jsTrim ("DROP TABLE t").data) DDL_PATTERNS = true then
        ValidateOutcome.permissionWriteDDL
       else ValidateOutcome.permissionWriteOther) :=
  c3_write_allowlist "DROP TABLE t" (by decide) (by decide)

/-- Claim C4: a whitespace-only (or empty) query fails with the
empty-query `ValidationError` in every mode — the outcome is the
first-check outcome, so the failure precedes the injection scan, the
full-mode skip and the allow-list checks. -/
theorem c4_empty_query (sql : String) (mode : QueryMode)
    (h : sql.data.all jsWs = true) :
    validateQuery sql mode = ValidateOutcome.validationEmpty := by
  have h' : ∀ x ∈ sql.data, jsWs x = true := fun x hx => List.all_eq_true.mp h x hx
  have ht : jsTrim sql.data = [] := by
    unfold jsTrim
    rw [List.dropWhile_eq_nil_iff.mpr h', List.reverse_nil, List.dropWhile_nil,
      List.reverse_nil]
  simp [validateQuery, ht]

/-- Witness for C4: a whitespace-only query in `full` mode. -/
theorem c4_empty_query_witness :
    validateQuery "   " QueryMode.full = ValidateOutcome.validationEmpty :=
  c4_empty_query "   " QueryMode.full (by decide)

/-- A `*`-quantified class consumes the whole remainder exactly when every
remaining character is in the class. -/
theorem pDrops_any_isEmpty (p : Char → Bool) (cs : List Char) :
    (pDrops p cs).any (fun t => t.isEmpty) = cs.all p := by
  induction cs with
  | nil => simp [pDrops]
  | cons c cs ih =>
    by_cases hc : p c = true <;> simp [pDrops, hc, ih]

/-- The identifier rule in the words of the spec: the remainder matches
`^[A-Za-z0-9_][A-Za-z0-9_.]*$` — a word character followed by word
characters and dots, and in particular it is non-empty. -/
def specIdentMatch (s : List Char) : Bool :=
  match s with
  | [] => false
  | c :: cs => jsWordChar c && cs.all (fun d => jsWordChar d || d == '.')

/-- The transliterated `/^[\w][\w.]*$/i` test agrees with the spec's
reading of it. -/
theorem identRegexOk_eq_spec (s : List Char) : identRegexOk s = specIdentMatch s := by
  cases s with
  | nil => rfl
  | cons c cs =>
    simp [identRegexOk, matchAtomsAll, specIdentMatch, pDrops_any_isEmpty]

/-- A dot-free list splits into itself alone. -/
theorem splitDots_of_no_dot (l : List Char) (h : l.any (fun c => c == '.') = false) :
    splitDots l = [l] := by
  induction l with
  | nil => rfl
  | cons c cs ih =>
    simp only [List.any_cons, Bool.or_eq_false_iff] at h
    simp [splitDots, h.1, ih h.2]

/-- Claim C9: `sanitizeIdentifier` strips one layer of wrapping delimiters
and returns the remainder exactly when it matches
`^[A-Za-z0-9_][A-Za-z0-9_.]*$` (throwing `ValidationError` otherwise,
including on an empty remainder), and `escapeIdentifier` is the sanitized
identifier re-quoted dot-segment-wise per dialect, failing exactly when
`sanitizeIdentifier` fails. -/
theorem c9_identifier_codec (id : String) :
    (sanitizeIdentifier id =
      (if specIdentMatch (stripWrap id.data) then some (⟨stripWrap id.data⟩ : String)
       else none))
    ∧ (∀ engine, escapeIdentifier id engine =
        (sanitizeIdentifier id).map (fun s =>
          (⟨joinDots ((splitDots s.data).map (wrapSeg engine))⟩ : String))) := by
  constructor
  · rw [sanitizeIdentifier, identRegexOk_eq_spec]
  · intro engine
    unfold escapeIdentifier
    cases hs : sanitizeIdentifier id with
    | none => rfl
    | some s =>
      by_cases hd : s.data.any (fun c => c == '.') = true
      · simp [hd]
      · have hd' : s.data.any (fun c => c == '.') = false := by
          cases hval : s.data.any (fun c => c == '.') with
          | false => rfl
          | true => exact absurd hval hd
        simp [hd', splitDots_of_no_dot s.data hd', joinDots]

/-- Claim C10: the delimiter strip removes a leading and a trailing
delimiter independently, so one-sided and mismatched wrappers are
accepted rather than rejected. -/
theorem c10_one_sided_strip :
    sanitizeIdentifier "[users" = some "users" ∧
    sanitizeIdentifier "users]" = some "users" ∧
    sanitizeIdentifier "[users\"" = some "users" := by decide

/-- A list is a prefix of itself followed by anything. -/
theorem isPrefixOf_self_app (xs ys : List Char) : xs.isPrefixOf (xs ++ ys) = true := by
  induction xs with
  | nil => simp [List.isPrefixOf]
  | cons c cs ih => simp [List.isPrefixOf, ih]

/-- A prefix occurrence is a substring occurrence. -/
theorem hasSubstr_of_pref (xs l : List Char) (h : xs.isPrefixOf l = true) :
    hasSubstr xs l = true := by
  cases l with
  | nil =>
    cases xs with
    | nil => rfl
    | cons c cs => exact absurd h (by simp [List.isPrefixOf])
  | cons c cs => simp [hasSubstr, h]

/-- Substring occurrences survive prepending. -/
theorem hasSubstr_append_left (xs l as : List Char) (h : hasSubstr xs l = true) :
    hasSubstr xs (as ++ l) = true := by
  induction as with
  | nil => simpa using h
  | cons a as ih => simp [hasSubstr, ih]

/-- An explicitly placed occurrence is found. -/
theorem hasSubstr_middle (as xs bs : List Char) :
    hasSubstr xs (as ++ (xs ++ bs)) = true :=
  hasSubstr_append_left xs (xs ++ bs) as
    (hasSubstr_of_pref xs (xs ++ bs) (isPrefixOf_self_app xs bs))

/-- Counterexample to C8 as stated: for the MSSQL adapter and the query
`SELECT*FROM t`, the trimmed statement begins (case-insensitively) with
`SELECT` and contains neither ` TOP ` nor ` OFFSET `, yet `executeQuery`
leaves the statement unmodified — no limiting clause is added, because
the insertion regex additionally requires whitespace after the keyword. -/
theorem c8_counterexample :
    msLimitCond "SELECT*FROM t" = true ∧
    mssqlRewriteQuery "SELECT*FROM t" 50 = "SELECT*FROM t" ∧
    hasSubstr "TOP".data ("SELECT*FROM t").data = false := by decide

/-- Claim C8 as amended: the PostgreSQL adapter rewrites exactly when the
trimmed statement begins with `SELECT` and lacks ` LIMIT `, appending
`LIMIT <limit>`; the MSSQL adapter, under its analogous condition,
inserts `TOP <limit>` only when the statement moreover starts with
optional whitespace, `SELECT`, and at least one whitespace character, and
passes the statement through unmodified otherwise (in particular when
`SELECT` is not followed by whitespace). -/
theorem c8_amended (q : String) (lim : Nat) :
    (pgLimitCond q = true →
      pgRewriteQuery q lim =
        ⟨pgStripTail (jsTrim q.data) ++ (" LIMIT " ++ toString lim).data⟩ ∧
      hasSubstr (" LIMIT " ++ toString lim).data (pgRewriteQuery q lim).data = true)
    ∧ (pgLimitCond q = false → pgRewriteQuery q lim = q)
    ∧ (msLimitCond q = false → mssqlRewriteQuery q lim = q)
    ∧ (msLimitCond q = true → msTopShape q.data = false → mssqlRewriteQuery q lim = q)
    ∧ (msLimitCond q = true → msTopShape q.data = true →
        hasSubstr ("TOP " ++ toString lim ++ " ").data (mssqlRewriteQuery q lim).data = true) := by
  refine ⟨?_, ?_, ?_, ?_, ?_⟩
  · intro hpg
    constructor
    · simp [pgRewriteQuery, hpg]
    · have h := hasSubstr_middle (pgStripTail (jsTrim q.data))
        (" LIMIT " ++ toString lim).data []
      simpa [pgRewriteQuery, hpg] using h
  · intro hpg
    simp [pgRewriteQuery, hpg]
  · intro hms
    simp [mssqlRewriteQuery, hms]
  · intro hms hshape
    simp [mssqlRewriteQuery, hms, msTopReplace, hshape]
  · intro hms hshape
    have h := hasSubstr_middle
      (q.data.takeWhile jsWs ++ ((q.data.dropWhile jsWs).take 6 ++
        ((q.data.dropWhile jsWs).drop 6).takeWhile jsWs))
      ("TOP " ++ toString lim ++ " ").data
      (((q.data.dropWhile jsWs).drop 6).dropWhile jsWs)
    simpa [mssqlRewriteQuery, hms, msTopReplace, hshape, List.append_assoc] using h

/-- Witness for C8 as amended, at the spec's example query and limit. -/
theorem c8_amended_witness :
    pgRewriteQuery "SELECT * FROM t" 50 =
      ⟨pgStripTail (jsTrim ("SELECT * FROM t").data) ++ (" LIMIT " ++ toString 50).data⟩ ∧
    hasSubstr ("TOP " ++ toString 50 ++ " ").data
      (mssqlRewriteQuery "SELECT * FROM t" 50).data = true :=
  ⟨((c8_amended "SELECT * FROM t" 50).1 (by decide)).1,
   (c8_amended "SELECT * FROM t" 50).2.2.2.2 (by decide) (by decide)⟩

/-- Counterexample to C5 as stated: a failed `connect` on a fresh manager
(PostgreSQL, driver refuses) leaves the manager still holding the failed
adapter instance — with its pool reference set — rather than discarding
it. -/
theorem c5_counterexample :
    ((ConnectionManager.mk none none).connect
        ⟨DatabaseEngine.postgres, "db.example.com", none, some "app", some "u", some "p"⟩
        (DriverResult.fail "connection refused") DriverResult.ok).1.adapter =
      some ⟨DatabaseEngine.postgres, false, none, none, true⟩ := by decide

/-- Claim C5 as amended: when the adapter's `connect` fails (and the
implicit pre-disconnect of any prior live session does not itself fail),
the manager holds no live session afterwards — the connection state
projects to fully disconnected and `isConnected` is false — and the
driver error is wrapped in `ConnectionError` preserving the original
cause; however the failed adapter instance remains stored in the manager
(disconnected), and for PostgreSQL its pool reference remains set. -/
theorem c5_amended (m : ConnectionManager) (cfg : ConnectionConfig) (msg : String)
    (teardown : DriverResult)
    (h : ∀ a, m.adapter = some a → a.isConnected = true →
      (a.disconnect teardown).2 = none) :
    (m.connect cfg (DriverResult.fail msg) teardown).2 =
      some (DbError.connectionError (some msg)) ∧
    ConnectionManager.isConnected (m.connect cfg (DriverResult.fail msg) teardown).1 = false ∧
    ConnectionManager.getConnectionState (m.connect cfg (DriverResult.fail msg) teardown).1 =
      disconnectedState ∧
    ∃ a, (m.connect cfg (DriverResult.fail msg) teardown).1.adapter = some a ∧
      a.isConnected = false ∧
      (cfg.engine = DatabaseEngine.postgres → a.poolOpen = true) := by
  cases hm : m.adapter with
  | none =>
    cases he : cfg.engine <;>
      simp [ConnectionManager.connect, hm, AdapterState.connect, createAdapter, he,
        ConnectionManager.isConnected, ConnectionManager.getConnectionState,
        disconnectedState]
  | some a =>
    by_cases hc : a.isConnected = true
    · have hd := h a hm hc
      cases he : cfg.engine <;>
        simp [ConnectionManager.connect, hm, hc, ConnectionManager.disconnect,
          hd, AdapterState.connect, createAdapter, he,
          ConnectionManager.isConnected, ConnectionManager.getConnectionState,
          disconnectedState]
    · have hc' : a.isConnected = false := by
        cases hval : a.isConnected with
        | false => rfl
        | true => exact absurd hval hc
      cases he : cfg.engine <;>
        simp [ConnectionManager.connect, hm, hc', AdapterState.connect, createAdapter,
          he, ConnectionManager.isConnected, ConnectionManager.getConnectionState,
          disconnectedState]

/-- Witness for C5 as amended: fresh manager, PostgreSQL, refused
connection. -/
theorem c5_amended_witness :
    ((ConnectionManager.mk none none).connect
        ⟨DatabaseEngine.postgres, "db.example.com", none, some "app", some "u", some "p"⟩
        (DriverResult.fail "connection refused") DriverResult.ok).2 =
      some (DbError.connectionError (some "connection refused")) ∧
    ConnectionManager.getConnectionState
      ((ConnectionManager.mk none none).connect
        ⟨DatabaseEngine.postgres, "db.example.com", none, some "app", some "u", some "p"⟩
        (DriverResult.fail "connection refused") DriverResult.ok).1 = disconnectedState :=
  ⟨(c5_amended ⟨none, none⟩
      ⟨DatabaseEngine.postgres, "db.example.com", none, some "app", some "u", some "p"⟩
      "connection refused" DriverResult.ok (fun a ha => by simp at ha)).1,
   (c5_amended ⟨none, none⟩
      ⟨DatabaseEngine.postgres, "db.example.com", none, some "app", some "u", some "p"⟩
      "connection refused" DriverResult.ok (fun a ha => by simp at ha)).2.2.1⟩

/-- Claim C6: every generic operation called through the manager with no
live session — no stored adapter, or a stored adapter reporting itself
disconnected — fails with `NotConnected`, never with any other error
kind, whatever the underlying driver would have answered. -/
theorem c6_not_connected (m : ConnectionManager) (h : m.noLiveSession = true)
    (tbl : String) (sch : Option String) (sql : String) (lim : Option Nat) (db : String)
    (d1 : Except String (List String)) (d2 : Except String (List TableInfo))
    (d3 : String → Except String (List String))
    (d4 : String → Except String (List (List String)))
    (t5 d5 : DriverResult) :
    m.listDatabases d1 = Except.error DbError.notConnected ∧
    m.listTables d2 = Except.error DbError.notConnected ∧
    m.describeTable tbl sch d3 = Except.error DbError.notConnected ∧
    m.executeQuery sql lim d4 = Except.error DbError.notConnected ∧
    (m.switchDatabase db t5 d5).2 = some DbError.notConnected := by
  have hg : m.getAdapter = Except.error DbError.notConnected := by
    cases hm : m.adapter with
    | none => simp [ConnectionManager.getAdapter, hm]
    | some a =>
      have ha : a.isConnected = false := by
        simpa [ConnectionManager.noLiveSession, hm] using h
      simp [ConnectionManager.getAdapter, hm, ha]
  refine ⟨?_, ?_, ?_, ?_, ?_⟩ <;>
    simp [ConnectionManager.listDatabases, ConnectionManager.listTables,
      ConnectionManager.describeTable, ConnectionManager.executeQuery,
      ConnectionManager.switchDatabase, hg]

/-- Witness for C6: a manager holding a constructed-but-disconnected
adapter, with succeeding driver oracles. -/
theorem c6_not_connected_witness :
    (ConnectionManager.mk (some (createAdapter DatabaseEngine.postgres)) none).listDatabases
      (Except.ok ["a"]) = Except.error DbError.notConnected ∧
    (ConnectionManager.mk (some (createAdapter DatabaseEngine.postgres)) none).listTables
      (Except.ok []) = Except.error DbError.notConnected ∧
    (ConnectionManager.mk (some (createAdapter DatabaseEngine.postgres)) none).describeTable
      "users" none (fun _ => Except.ok []) = Except.error DbError.notConnected ∧
    (ConnectionManager.mk (some (createAdapter DatabaseEngine.postgres)) none).executeQuery
      "SELECT 1" none (fun _ => Except.ok []) = Except.error DbError.notConnected ∧
    ((ConnectionManager.mk (some (createAdapter DatabaseEngine.postgres)) none).switchDatabase
      "app" DriverResult.ok DriverResult.ok).2 = some DbError.notConnected :=
  c6_not_connected ⟨some (createAdapter DatabaseEngine.postgres), none⟩ (by decide)
    "users" none "SELECT 1" none "app" (Except.ok ["a"]) (Except.ok [])
    (fun _ => Except.ok []) (fun _ => Except.ok []) DriverResult.ok DriverResult.ok

/-- Claim C7: after a successful `connect({engine, server, database})` the
state projection reports connected with matching engine, server and
database; after `disconnect()` from any prior state it reports the
fully-disconnected state; `disconnect` twice in a row equals `disconnect`
once (the second call is a successful no-op), `disconnect` with no stored
adapter is a successful no-op, and the stored adapter and server
references are cleared even when the adapter teardown throws. -/
theorem c7_state_roundtrip (m : ConnectionManager) (cfg : ConnectionConfig) (db : String)
    (t t1 t2 : DriverResult) (hdb : cfg.database = some db) :
    ((m.connect cfg DriverResult.ok t).2 = none →
      ConnectionManager.getConnectionState (m.connect cfg DriverResult.ok t).1 =
        ⟨true, some cfg.engine, some db, some cfg.server⟩) ∧
    ConnectionManager.getConnectionState (m.disconnect t1).1 = disconnectedState ∧
    (m.disconnect t1).1.disconnect t2 = ((m.disconnect t1).1, none) ∧
    (m.adapter = none → m.disconnect t1 = (m, none)) ∧
    (∀ a, m.adapter = some a →
      (m.disconnect t1).1.adapter = none ∧ (m.disconnect t1).1.serverAddress = none) := by
  refine ⟨?_, ?_, ?_, ?_, ?_⟩
  · intro hok
    cases hm : m.adapter with
    | none =>
      cases he : cfg.engine <;>
        simp [ConnectionManager.connect, hm, AdapterState.connect, createAdapter, he,
          ConnectionManager.getConnectionState, hdb]
    | some a =>
      by_cases hc : a.isConnected = true
      · cases hd : (a.disconnect t).2 with
        | some e =>
          rw [ConnectionManager.connect] at hok
          simp [hm, hc, ConnectionManager.disconnect, hd] at hok
        | none =>
          cases he : cfg.engine <;>
            simp [ConnectionManager.connect, hm, hc, ConnectionManager.disconnect, hd,
              AdapterState.connect, createAdapter, he,
              ConnectionManager.getConnectionState, hdb]
      · have hc' : a.isConnected = false := by
          cases hval : a.isConnected with
          | false => rfl
          | true => exact absurd hval hc
        cases he : cfg.engine <;>
          simp [ConnectionManager.connect, hm, hc', AdapterState.connect, createAdapter,
            he, ConnectionManager.getConnectionState, hdb]
  · cases hm : m.adapter with
    | none => simp [ConnectionManager.disconnect, hm, ConnectionManager.getConnectionState]
    | some a =>
      simp [ConnectionManager.disconnect, hm, ConnectionManager.getConnectionState,
        disconnectedState]
  · cases hm : m.adapter with
    | none => simp [ConnectionManager.disconnect, hm]
    | some a => simp [ConnectionManager.disconnect, hm]
  · intro hm
    simp [ConnectionManager.disconnect, hm]
  · intro a hm
    simp [ConnectionManager.disconnect, hm]

/-- Witness for C7: fresh manager, successful PostgreSQL connect to a
named database, then the disconnect clauses at a live session. -/
theorem c7_state_roundtrip_witness :
    ConnectionManager.getConnectionState
      ((ConnectionManager.mk none none).connect
        ⟨DatabaseEngine.postgres, "db.example.com", some 5432, some "app", some "u", some "p"⟩
        DriverResult.ok DriverResult.ok).1 =
      ⟨true, some DatabaseEngine.postgres, some "app", some "db.example.com"⟩ ∧
    ((ConnectionManager.mk none none).disconnect DriverResult.ok) =
      (ConnectionManager.mk none none, none) :=
  ⟨(c7_state_roundtrip ⟨none, none⟩
      ⟨DatabaseEngine.postgres, "db.example.com", some 5432, some "app", some "u", some "p"⟩
      "app" DriverResult.ok DriverResult.ok DriverResult.ok rfl).1 (by decide),
   (c7_state_roundtrip ⟨none, none⟩
      ⟨DatabaseEngine.postgres, "db.example.com", some 5432, some "app", some "u", some "p"⟩
      "app" DriverResult.ok DriverResult.ok DriverResult.ok rfl).2.2.2.1 rfl⟩

end SqlMcp
